import Mathlib

/-!
Verification of the query-to-sentiment pipeline of the Twitter sentiment
app (`src/app.py`).  The script's pure core is shallowly embedded here:

* polarity scores are rationals (the external scorer is a parameter
  `score : String → ℚ`, a black box returning a number in `[-1, 1]`);
* the sentiment bucketing lambda of line 87 becomes `classify`;
* the query preprocessing of lines 38-44 becomes `normalize`, with
  Python `str.strip` / `str.startswith` modelled character-wise
  (`pyStrip`, `pyStartsWith`);
* the DataFrame built on lines 84-88 becomes a `List Row`;
* `value_counts`, the percentage metrics, the mean, the per-label
  sampling and the display truncation are embedded as plain functions
  over that list;
* `pandas.DataFrame.sample(k)` — a uniform draw of `k` rows without
  replacement — is modelled by indexing the list of all length-`k`
  sublists with a seed, so uniformity is the statement that the seeds
  `0 .. C(n,k)-1` enumerate the possible draws exactly once;
* the `st.stop()` guard on empty `texts` (lines 74-76) is modelled by
  an `Except` error, named `EmptyInputError` after the spec's taxonomy.
-/

namespace TwitterSentiment

/-- The three sentiment buckets produced by the lambda on line 87. -/
inductive Label where
  | Positive
  | Negative
  | Neutral
deriving DecidableEq, Repr

/-- The positive threshold hard-coded on line 87 of `app.py` (`0.1`). -/
def posThreshold : ℚ := 1 / 10

/-- The negative threshold hard-coded on line 87 of `app.py` (`-0.1`). -/
def negThreshold : ℚ := -(1 / 10)

/-- Line 87: `"Positive" if x > 0.1 else ("Negative" if x < -0.1 else "Neutral")`. -/
def classify (x : ℚ) : Label :=
  if x > posThreshold then .Positive
  else if x < negThreshold then .Negative
  else .Neutral

/-- Python `str.strip()`: drop leading and trailing whitespace characters. -/
def pyStrip (s : String) : String :=
  ⟨(((s.data.dropWhile Char.isWhitespace).reverse.dropWhile Char.isWhitespace).reverse)⟩

/-- Python `str.startswith(c)` for a single-character c. -/
def pyStartsWith (c : Char) (s : String) : Bool :=
  s.data.head? = some c

/-- Lines 38-44: strip the query, quote it unless it starts with `#` or `@`,
then append the fixed `lang:en -is:retweet` clause. -/
def normalize (query : String) : String :=
  let processed := pyStrip query
  let processed :=
    if !(pyStartsWith '#' processed) && !(pyStartsWith '@' processed) then
      "\"" ++ processed ++ "\""
    else processed
  processed ++ " lang:en -is:retweet"

/-- Line 34: `if st.button("Analyze") and query:` — the guard on the raw,
untrimmed input string is Python truthiness, i.e. non-emptiness. -/
def guardPasses (query : String) : Bool :=
  !query.isEmpty

/-- Line 45: `max_results=min(limit, 100)` — the bound actually passed to
`search_recent_tweets`. -/
def maxResults (limit : ℕ) : ℕ :=
  min limit 100

/-- One row of the DataFrame built on lines 84-88: the tweet text, its
polarity score and its sentiment label. -/
structure Row where
  tweet : String
  polarity : ℚ
  label : Label
deriving DecidableEq, Repr

/-- Lines 84-88: build the DataFrame from the fetched texts; each text is
scored and then classified. -/
def buildDf (score : String → ℚ) (texts : List String) : List Row :=
  texts.map fun t => ⟨t, score t, classify (score t)⟩

/-- The error the spec's taxonomy names for an empty input collection;
in `app.py` the corresponding code path (lines 74-76) halts the run via
`st.stop()` before any output is produced. -/
inductive EmptyInputError where
  | emptyInput
deriving DecidableEq, Repr

/-- Lines 74-88: if `texts` is empty the script stops before producing any
output (modelled as `Except.error`); otherwise the whole collection is
classified into the DataFrame. -/
def analyze (score : String → ℚ) (texts : List String) :
    Except EmptyInputError (List Row) :=
  if texts.isEmpty then .error .emptyInput
  else .ok (buildDf score texts)

/-- `df["Sentiment"].value_counts().get(lbl, 0)` (lines 91, 98, 103, 108):
the number of rows carrying the given label. -/
def countLabel (lbl : Label) (df : List Row) : ℕ :=
  (df.filter fun r => r.label = lbl).length

/-- Lines 99/104/109: `(count / total) * 100 if total > 0 else 0`. -/
def pct (count total : ℕ) : ℚ :=
  if total > 0 then ((count : ℚ) / (total : ℚ)) * 100 else 0

/-- Line 143: `df['Polarity'].mean()` — the unweighted arithmetic mean of
the polarity column. -/
def meanPolarity (df : List Row) : ℚ :=
  (df.map Row.polarity).sum / ((df.length : ℚ))

/-- The sample size per label hard-coded on line 136 (`min(3, ...)`). -/
def sampleSizePerLabel : ℕ := 3

/-- Model of `pandas.DataFrame.sample(k)`: a uniform draw of `k` elements
without replacement.  The draw is embedded as indexing the list of all
length-`k` sublists by a seed; uniformity of the library draw corresponds
to the seed being uniform over `0 .. C(n,k) - 1`. -/
def pandasSample (seed : ℕ) (k : ℕ) (xs : List α) : List α :=
  (xs.sublistsLen k).getD (seed % (xs.sublistsLen k).length) []

/-- Lines 132-136: filter the DataFrame to one label; if the filtered frame
is empty, produce no sample, otherwise draw `min(3, len)` rows. -/
def sampleForLabel (seed : ℕ) (lbl : Label) (df : List Row) :
    Option (List Row) :=
  let members := df.filter fun r => r.label = lbl
  if members.isEmpty then none
  else some (pandasSample seed (min sampleSizePerLabel members.length) members)

/-- The display truncation length hard-coded on line 138 (`[:200]`). -/
def truncateLength : ℕ := 200

/-- Python character slice `s[:n]`. -/
def pyTake (n : ℕ) (s : String) : String :=
  ⟨s.data.take n⟩

/-- Line 138: `row['Tweet'][:200]` followed by `'...' if len(...) > 200
else ''` — the text as shown in the sample listing. -/
def displayTweet (t : String) : String :=
  pyTake truncateLength t ++ (if t.data.length > truncateLength then "..." else "")

/-- Line 156: `df.to_csv(index=False)` — the exported table, one record per
row, carrying the stored tweet text, polarity and label unmodified. -/
def csvRecords (df : List Row) : List (String × ℚ × Label) :=
  df.map fun r => (r.tweet, r.polarity, r.label)

/-- The header row of the CSV export: the DataFrame's column names. -/
def csvHeader : String := "Tweet,Polarity,Sentiment"


/-- C1: with the default thresholds 0.1 and -0.1, classification is Positive
exactly when the score is strictly above 0.1, Negative exactly when strictly
below -0.1, and Neutral otherwise; in particular both threshold values
themselves classify Neutral. -/
theorem classify_strict_thresholds (x : ℚ) :
    posThreshold = 1 / 10 ∧ negThreshold = -(1 / 10) ∧
    (classify x = Label.Positive ↔ x > 1 / 10) ∧
    (classify x = Label.Negative ↔ x < -(1 / 10)) ∧
    (classify x = Label.Neutral ↔ (¬ x > 1 / 10 ∧ ¬ x < -(1 / 10))) ∧
    classify posThreshold = Label.Neutral ∧
    classify negThreshold = Label.Neutral := by
  refine ⟨rfl, rfl, ?_, ?_, ?_,
    by norm_num [classify, posThreshold, negThreshold],
    by norm_num [classify, posThreshold, negThreshold]⟩ <;>
    · unfold classify posThreshold negThreshold
      split_ifs with h1 h2 <;> simp_all <;> linarith

/-- C3: normalization strips the input; a stripped text starting with `#` or
`@` passes through unmodified, any other text is wrapped in double quotes;
the fixed clause ` lang:en -is:retweet` is appended; and the three scenario
inputs produce exactly the specified queries. -/
theorem normalize_trichotomy (q : String) :
    ((pyStartsWith '#' (pyStrip q) = true ∨ pyStartsWith '@' (pyStrip q) = true) →
      normalize q = pyStrip q ++ " lang:en -is:retweet") ∧
    ((pyStartsWith '#' (pyStrip q) = false ∧ pyStartsWith '@' (pyStrip q) = false) →
      normalize q = "\"" ++ pyStrip q ++ "\"" ++ " lang:en -is:retweet") ∧
    normalize "Bitcoin" = "\"Bitcoin\" lang:en -is:retweet" ∧
    normalize "#AI" = "#AI lang:en -is:retweet" ∧
    normalize "  @nasa  " = "@nasa lang:en -is:retweet" := by
  refine ⟨?_, ?_, by decide, by decide, by decide⟩
  · rintro (h | h) <;> simp [normalize, h]
  · rintro ⟨h1, h2⟩
    simp [normalize, h1, h2]

/-- Witness for C3 at the concrete inputs `"#AI"` (hashtag branch) and
`"Bitcoin"` (quoting branch). -/
theorem normalize_trichotomy_witness :
    normalize "#AI" = pyStrip "#AI" ++ " lang:en -is:retweet" ∧
    normalize "Bitcoin" = "\"" ++ pyStrip "Bitcoin" ++ "\"" ++ " lang:en -is:retweet" :=
  ⟨(normalize_trichotomy "#AI").1 (Or.inl (by decide)),
   (normalize_trichotomy "Bitcoin").2.1 ⟨by decide, by decide⟩⟩

/-- C7: each per-label percentage equals 100 × count / total when the total
is positive, and the division is guarded: a zero total yields 0 instead of
an error, so `pct` is total on every count/total pair. -/
theorem pct_guarded (count total : ℕ) :
    (0 < total → pct count total = 100 * (count : ℚ) / (total : ℚ)) ∧
    pct count 0 = 0 := by
  constructor
  · intro h
    rw [pct, if_pos h]
    ring
  · rfl

/-- Witness for C7 at count 3, total 4 and at total 0. -/
theorem pct_guarded_witness :
    pct 3 4 = 100 * (3 : ℚ) / (4 : ℚ) ∧ pct 7 0 = 0 :=
  ⟨(pct_guarded 3 4).1 (by norm_num), (pct_guarded 7 0).2⟩

/-- C8: the result-count bound passed to the external search API is
`min(limit, 100)`, hence never exceeds the cap of 100, for every
user-supplied fetch-limit value. -/
theorem maxResults_capped (limit : ℕ) :
    maxResults limit = min limit 100 ∧ maxResults limit ≤ 100 :=
  ⟨rfl, Nat.min_le_right limit 100⟩

/-- C10: a non-empty input consisting only of whitespace passes the guard on
line 34 (which checks only raw non-emptiness) and normalizes without failure
to the query with an empty quoted phrase. -/
theorem whitespace_only_query (q : String) (hne : q ≠ "")
    (hws : ∀ c ∈ q.data, c.isWhitespace = true) :
    guardPasses q = true ∧
    normalize q = "\"\" lang:en -is:retweet" := by
  have hstrip : pyStrip q = "" := by
    unfold pyStrip
    rw [List.dropWhile_eq_nil_iff.mpr hws]
    rfl
  constructor
  · unfold guardPasses
    rw [Bool.not_eq_true']
    rw [Bool.eq_false_iff]
    intro habs
    exact hne ((String.isEmpty_iff q).mp habs)
  · simp [normalize, hstrip]
    decide

/-- Witness for C10 at the three-space input. -/
theorem whitespace_only_query_witness :
    guardPasses "   " = true ∧
    normalize "   " = "\"\" lang:en -is:retweet" :=
  whitespace_only_query "   " (by decide) (by decide)

/-- C2: analyzing an empty collection yields the EmptyInputError (and that
is the only error case), and failure is all-or-nothing: whenever a
result is produced at all, every text of the input collection appears in it,
classified, in order. -/
theorem analyze_atomic (score : String → ℚ) (texts : List String) :
    (analyze score texts = Except.error EmptyInputError.emptyInput ↔ texts = []) ∧
    (texts ≠ [] → ∃ df, analyze score texts = Except.ok df ∧
      df.length = texts.length ∧
      ∀ i, i < texts.length →
        df.get? i = some ⟨texts.getD i "", score (texts.getD i ""),
          classify (score (texts.getD i ""))⟩) := by
  constructor
  · unfold analyze
    rcases texts with _ | ⟨t, ts⟩ <;> simp
  · intro hne
    refine ⟨buildDf score texts, ?_, ?_, ?_⟩
    · unfold analyze
      rw [if_neg (by simpa using hne)]
    · simp [buildDf]
    · intro i hi
      have hD : texts.getD i "" = texts[i] := List.getD_eq_getElem texts "" hi
      unfold buildDf
      rw [hD, List.get?_eq_getElem?, List.getElem?_map, List.getElem?_eq_getElem hi]
      rfl

/-- Witness for C2: the error at the empty input, and the full classification
of a concrete two-element input. -/
theorem analyze_atomic_witness :
    (analyze (fun _ => (1 : ℚ) / 2) [] = Except.error EmptyInputError.emptyInput) ∧
    ∃ df, analyze (fun _ => (1 : ℚ) / 2) ["a", "b"] = Except.ok df ∧ df.length = 2 := by
  constructor
  · exact (analyze_atomic (fun _ => (1 : ℚ) / 2) []).1.mpr rfl
  · obtain ⟨df, h1, h2, _⟩ :=
      (analyze_atomic (fun _ => (1 : ℚ) / 2) ["a", "b"]).2 (by decide)
    exact ⟨df, h1, h2⟩

/-- C6: the mean polarity is the unweighted arithmetic mean of the per-text
scores, is invariant under permutation of the input texts, and analyzing
`n ≥ 1` copies of a text scoring exactly `p` yields mean polarity `p`. -/
theorem meanPolarity_unweighted_mean (score : String → ℚ)
    (texts texts₂ : List String) (hperm : texts.Perm texts₂)
    (t : String) (p : ℚ) (hp : score t = p) (n : ℕ) (hn : 1 ≤ n) :
    meanPolarity (buildDf score texts) = (texts.map score).sum / (texts.length : ℚ) ∧
    meanPolarity (buildDf score texts) = meanPolarity (buildDf score texts₂) ∧
    meanPolarity (buildDf score (List.replicate n t)) = p := by
  have hmap : ∀ l : List String,
      (buildDf score l).map Row.polarity = l.map score := by
    intro l
    unfold buildDf
    rw [List.map_map]
    rfl
  have hlen : ∀ l : List String, (buildDf score l).length = l.length := by
    intro l
    unfold buildDf
    exact List.length_map _ _
  refine ⟨?_, ?_, ?_⟩
  · unfold meanPolarity
    rw [hmap, hlen]
  · unfold meanPolarity
    rw [hmap, hlen, hmap, hlen]
    rw [(hperm.map score).sum_eq, hperm.length_eq]
  · have hn0 : (n : ℚ) ≠ 0 := by
      exact_mod_cast Nat.one_le_iff_ne_zero.mp hn
    unfold meanPolarity
    rw [hmap, hlen, List.map_replicate, hp, List.sum_replicate, List.length_replicate]
    rw [nsmul_eq_mul, mul_comm, mul_div_assoc, div_self hn0, mul_one]

/-- Witness for C6 at a two-element input, its transposition, and two copies
of a text scoring 1/4. -/
theorem meanPolarity_unweighted_mean_witness :
    meanPolarity (buildDf (fun _ => (1 : ℚ) / 4) ["a", "b"]) =
      ((["a", "b"].map (fun _ => (1 : ℚ) / 4)).sum / ((["a", "b"] : List String).length : ℚ)) ∧
    meanPolarity (buildDf (fun _ => (1 : ℚ) / 4) ["a", "b"]) =
      meanPolarity (buildDf (fun _ => (1 : ℚ) / 4) ["b", "a"]) ∧
    meanPolarity (buildDf (fun _ => (1 : ℚ) / 4) (List.replicate 2 "a")) = 1 / 4 :=
  meanPolarity_unweighted_mean (fun _ => (1 : ℚ) / 4) ["a", "b"] ["b", "a"]
    (List.Perm.swap "b" "a" []) "a" (1 / 4) rfl 2 (by norm_num)

/-- Every row carries exactly one of the three labels, so the three label
counts add up to the number of rows. -/
theorem countLabel_total (df : List Row) :
    countLabel Label.Positive df + countLabel Label.Negative df +
      countLabel Label.Neutral df = df.length := by
  induction df with
  | nil => rfl
  | cons r rest ih =>
    unfold countLabel at *
    cases hr : r.label <;> simp [List.filter_cons, hr] <;> omega

/-- C4: for a non-empty input the three per-label counts partition it (they
sum to the number of texts) and the three per-label percentages sum to
exactly 100. -/
theorem counts_partition (score : String → ℚ) (texts : List String)
    (hne : texts ≠ []) :
    countLabel Label.Positive (buildDf score texts) +
      countLabel Label.Negative (buildDf score texts) +
      countLabel Label.Neutral (buildDf score texts) = texts.length ∧
    pct (countLabel Label.Positive (buildDf score texts)) (buildDf score texts).length +
      pct (countLabel Label.Negative (buildDf score texts)) (buildDf score texts).length +
      pct (countLabel Label.Neutral (buildDf score texts)) (buildDf score texts).length
      = 100 := by
  have hlen : (buildDf score texts).length = texts.length := List.length_map _ _
  have hcnt := countLabel_total (buildDf score texts)
  refine ⟨by rw [hcnt, hlen], ?_⟩
  have hpos : 0 < (buildDf score texts).length := by
    rw [hlen]
    exact List.length_pos.mpr hne
  have hQ : (countLabel Label.Positive (buildDf score texts) : ℚ) +
      (countLabel Label.Negative (buildDf score texts) : ℚ) +
      (countLabel Label.Neutral (buildDf score texts) : ℚ) =
      ((buildDf score texts).length : ℚ) := by
    exact_mod_cast hcnt
  have hT0 : ((buildDf score texts).length : ℚ) ≠ 0 := by
    exact_mod_cast hpos.ne'
  unfold pct
  rw [if_pos hpos, if_pos hpos, if_pos hpos]
  field_simp
  linarith [hQ]

/-- Witness for C4 at the singleton input scored 0 (a Neutral text). -/
theorem counts_partition_witness :
    countLabel Label.Positive (buildDf (fun _ => (0 : ℚ)) ["x"]) +
      countLabel Label.Negative (buildDf (fun _ => (0 : ℚ)) ["x"]) +
      countLabel Label.Neutral (buildDf (fun _ => (0 : ℚ)) ["x"]) =
      (["x"] : List String).length ∧
    pct (countLabel Label.Positive (buildDf (fun _ => (0 : ℚ)) ["x"]))
        (buildDf (fun _ => (0 : ℚ)) ["x"]).length +
      pct (countLabel Label.Negative (buildDf (fun _ => (0 : ℚ)) ["x"]))
        (buildDf (fun _ => (0 : ℚ)) ["x"]).length +
      pct (countLabel Label.Neutral (buildDf (fun _ => (0 : ℚ)) ["x"]))
        (buildDf (fun _ => (0 : ℚ)) ["x"]).length = 100 :=
  counts_partition (fun _ => (0 : ℚ)) ["x"] (by decide)

/-- The modelled pandas draw always returns one of the length-k sublists of
the population, provided k does not exceed the population size. -/
theorem pandasSample_mem_sublistsLen (seed k : ℕ) (xs : List α)
    (hk : k ≤ xs.length) :
    pandasSample seed k xs ∈ xs.sublistsLen k := by
  have hlen : 0 < (xs.sublistsLen k).length := by
    rw [List.length_sublistsLen]
    exact Nat.choose_pos hk
  have hidx : seed % (xs.sublistsLen k).length < (xs.sublistsLen k).length :=
    Nat.mod_lt _ hlen
  rw [pandasSample, List.getD_eq_getElem _ _ hidx]
  exact List.getElem_mem hidx

/-- Uniformity of the modelled pandas draw: as the seed ranges over one full
period, every length-k sublist of the population is drawn exactly once. -/
theorem pandasSample_uniform (k : ℕ) (xs : List α) :
    (List.range (Nat.choose xs.length k)).map (fun sd => pandasSample sd k xs)
      = xs.sublistsLen k := by
  have hlen : (xs.sublistsLen k).length = Nat.choose xs.length k :=
    List.length_sublistsLen k xs
  apply List.ext_getElem
  · rw [List.length_map, List.length_range, hlen]
  · intro n h1 h2
    rw [List.getElem_map, List.getElem_range]
    rw [pandasSample, Nat.mod_eq_of_lt (by rw [hlen] at h2 ⊢; exact h2)]
    exact List.getD_eq_getElem _ _ h2

/-- C5: filtering the frame to a label with no members yields no sample; a
label with members yields a sample of size exactly min(3, count) drawn
without replacement from that label's members (a sublist); and over one full
period of seeds the draw enumerates each possible unordered sample exactly
once, i.e. a uniform seed induces the uniform without-replacement draw. -/
theorem sampleForLabel_spec (seed : ℕ) (lbl : Label) (df : List Row) :
    ((df.filter fun r => r.label = lbl) = [] →
      sampleForLabel seed lbl df = none) ∧
    ((df.filter fun r => r.label = lbl) ≠ [] →
      ∃ s, sampleForLabel seed lbl df = some s ∧
        s.length = min sampleSizePerLabel (df.filter fun r => r.label = lbl).length ∧
        s.Sublist (df.filter fun r => r.label = lbl)) ∧
    (List.range (Nat.choose (df.filter fun r => r.label = lbl).length
          (min sampleSizePerLabel (df.filter fun r => r.label = lbl).length))).map
        (fun sd => pandasSample sd
          (min sampleSizePerLabel (df.filter fun r => r.label = lbl).length)
          (df.filter fun r => r.label = lbl))
      = (df.filter fun r => r.label = lbl).sublistsLen
          (min sampleSizePerLabel (df.filter fun r => r.label = lbl).length) := by
  have hk : min sampleSizePerLabel (df.filter fun r => r.label = lbl).length ≤
      (df.filter fun r => r.label = lbl).length :=
    Nat.min_le_right _ _
  refine ⟨?_, ?_, pandasSample_uniform _ _⟩
  · intro h
    simp [sampleForLabel, h]
  · intro h
    obtain ⟨hsub, hslen⟩ := List.mem_sublistsLen.mp
      (pandasSample_mem_sublistsLen seed _ (df.filter fun r => r.label = lbl) hk)
    refine ⟨pandasSample seed
        (min sampleSizePerLabel (df.filter fun r => r.label = lbl).length)
        (df.filter fun r => r.label = lbl), ?_, hslen, hsub⟩
    simp [sampleForLabel, List.isEmpty_iff, h]

/-- Witness for C5 at a one-row frame: the Negative bucket is empty and
yields no sample, the Positive bucket yields a sample of size min(3,1) = 1. -/
theorem sampleForLabel_spec_witness :
    sampleForLabel 0 Label.Negative [⟨"a", 1, Label.Positive⟩] = none ∧
    ∃ s, sampleForLabel 0 Label.Positive [⟨"a", 1, Label.Positive⟩] = some s ∧
      s.length = 1 := by
  constructor
  · exact (sampleForLabel_spec 0 Label.Negative [⟨"a", 1, Label.Positive⟩]).1
      (by decide)
  · obtain ⟨s, hs, hl, _⟩ :=
      (sampleForLabel_spec 0 Label.Positive [⟨"a", 1, Label.Positive⟩]).2.1
        (by decide)
    exact ⟨s, hs, by rw [hl]; decide⟩

/-- C9: truncation to 200 characters happens only at presentation: the
displayed text is the first 200 characters of the tweet, with an ellipsis
appended exactly when the tweet is longer than 200 characters (a tweet of
at most 200 characters is displayed verbatim), while the stored frame and
the exported records retain the full original text unmodified. -/
theorem truncation_presentation_only (score : String → ℚ)
    (texts : List String) (t : String) :
    (pyTake truncateLength t).data ++ t.data.drop truncateLength = t.data ∧
    (pyTake truncateLength t).data.length ≤ truncateLength ∧
    (t.data.length ≤ truncateLength → displayTweet t = t) ∧
    (truncateLength < t.data.length →
      displayTweet t = pyTake truncateLength t ++ "...") ∧
    (buildDf score texts).map Row.tweet = texts ∧
    (csvRecords (buildDf score texts)).map (fun rec => rec.1) = texts := by
  refine ⟨?_, ?_, ?_, ?_, ?_, ?_⟩
  · exact List.take_append_drop _ _
  · rw [pyTake]
    rw [List.length_take]
    exact min_le_left _ _
  · intro h
    rw [displayTweet, if_neg (by omega)]
    rw [String.append_empty, pyTake, List.take_of_length_le h]
  · intro h
    rw [displayTweet, if_pos h]
  · rw [buildDf, List.map_map]
    exact List.map_id _
  · rw [csvRecords, buildDf, List.map_map, List.map_map]
    exact List.map_id _

/-- Witness for C9 at a short tweet (two characters, shown verbatim) and a
long one (201 characters, truncated with an ellipsis). -/
theorem truncation_presentation_only_witness :
    displayTweet "hi" = "hi" ∧
    displayTweet ⟨List.replicate 201 'a'⟩ =
      pyTake truncateLength ⟨List.replicate 201 'a'⟩ ++ "..." :=
  ⟨(truncation_presentation_only (fun _ => (0 : ℚ)) [] "hi").2.2.1 (by decide),
   (truncation_presentation_only (fun _ => (0 : ℚ)) []
      ⟨List.replicate 201 'a'⟩).2.2.2.1 (by
        show truncateLength < (List.replicate 201 'a').length
        rw [List.length_replicate]
        decide)⟩

end TwitterSentiment
